import Mathlib

/-!
Shallow embedding of the GURU APP backend (src/main.py) for verification.

The embedding models the three persisted tables (`users`, `items`,
`payments`) as lists of records together with auto-increment counters
(SQLite integer primary keys), and each HTTP handler with state-changing
behaviour as a pure function from a store state to `Except ApiError`
of the new store state and the handler's response payload.

External collaborators are kept abstract exactly as the code uses them:
password hashing (`hash_password`) is passed in as a function parameter,
and file persistence (`save_upload_file`) is represented by the optional
stored path it returns.  Numeric `float` fields (`price`, `amount`) are
modelled as `Int`; none of the modelled handlers performs arithmetic on
them, they are only stored and returned.  `created_at` timestamps are
omitted: they are only used for ordering in the read-only admin listing
endpoints, which mutate nothing.
-/

namespace GuruApp

/-- `User` table row (main.py, class User). -/
structure User where
  id : Nat
  name : String
  email : String
  password_hash : String
  role : String
  approved : Bool
deriving Repr, DecidableEq

/-- `Item` table row (main.py, class Item). -/
structure Item where
  id : Nat
  title : String
  description : Option String
  price : Int
  owner_id : Nat
  product_type : String
  file_path : Option String
  image_path : Option String
  paid : Bool
  active : Bool
deriving Repr, DecidableEq

/-- `Payment` table row (main.py, class Payment).  The claim kind field is
named `type` in the source; it is called `ptype` here because `type` has
special meaning in Lean. -/
structure Payment where
  id : Nat
  user_id : Nat
  amount : Int
  till_number : Option String
  transaction_code : Option String
  ptype : String
  status : String
deriving Repr, DecidableEq

/-- The whole persistent store: the three tables plus the auto-increment
counters of their integer primary keys. -/
structure StoreState where
  users : List User
  items : List Item
  payments : List Payment
  nextUserId : Nat
  nextItemId : Nat
  nextPaymentId : Nat
deriving Repr, DecidableEq

/-- Errors raised via `HTTPException` in the handlers. -/
inductive ApiError where
  | badRequest : String → ApiError
  | notFound : String → ApiError
  | forbidden : String → ApiError
  | unauthorized : String → ApiError
deriving Repr, DecidableEq

/-- `session.get(User, uid)`: primary-key lookup. -/
def getUserById (s : StoreState) (uid : Nat) : Option User :=
  s.users.find? (fun u => u.id == uid)

/-- `get_user_by_email` (main.py line 114). -/
def get_user_by_email (s : StoreState) (email : String) : Option User :=
  s.users.find? (fun u => u.email == email)

/-- `session.get(Item, item_id)`: primary-key lookup. -/
def getItemById (s : StoreState) (iid : Nat) : Option Item :=
  s.items.find? (fun it => it.id == iid)

/-- `session.get(Payment, payment_id)`: primary-key lookup. -/
def getPaymentById (s : StoreState) (pid : Nat) : Option Payment :=
  s.payments.find? (fun p => p.id == pid)

/-- The status recorded for payment `pid`, if the payment exists. -/
def paymentStatus (s : StoreState) (pid : Nat) : Option String :=
  (getPaymentById s pid).map (fun p => p.status)

/-- `POST /auth/register` (main.py lines 132-147): reject a duplicate
email, otherwise create the user with
`approved = False if role == "seller" else True`.
`hashPw` stands for the external `hash_password` collaborator.
Returns `(user_id, approved)` as in the response payload. -/
def register (hashPw : String → String) (s : StoreState)
    (name email password role : String) :
    Except ApiError (StoreState × Nat × Bool) :=
  match get_user_by_email s email with
  | some _ => .error (.badRequest "Email already registered")
  | none =>
    let user : User :=
      { id := s.nextUserId
        name := name
        email := email
        password_hash := hashPw password
        role := role
        approved := if role == "seller" then false else true }
    .ok ({ s with users := s.users ++ [user], nextUserId := s.nextUserId + 1 },
         user.id, user.approved)

/-- `POST /items/create` (main.py lines 157-196): the owner must exist,
have role `"seller"`, and be approved; the new item always starts
`paid=False, active=False`.  `file_path`/`image_path` are the paths the
external `save_upload_file` collaborator returned (None when no file was
sent).  Returns the new item id. -/
def create_item (s : StoreState) (title : String) (description : Option String)
    (price : Int) (product_type : String) (owner_id : Nat)
    (file_path image_path : Option String) :
    Except ApiError (StoreState × Nat) :=
  match getUserById s owner_id with
  | none => .error (.notFound "Owner not found")
  | some owner =>
    if owner.role != "seller" then
      .error (.forbidden "Only sellers can create items")
    else if !owner.approved then
      .error (.forbidden "Seller not approved by admin")
    else
      let item : Item :=
        { id := s.nextItemId
          title := title
          description := description
          price := price
          owner_id := owner_id
          product_type := product_type
          file_path := file_path
          image_path := image_path
          paid := false
          active := false }
      .ok ({ s with items := s.items ++ [item], nextItemId := s.nextItemId + 1 },
           item.id)

/-- `POST /payments/manual` (main.py lines 219-236): the user must exist;
the claim is recorded with `status="pending"`.  Returns the payment id. -/
def manual_payment (s : StoreState) (user_id : Nat) (amount : Int)
    (till_number transaction_code ptype : String) :
    Except ApiError (StoreState × Nat) :=
  match getUserById s user_id with
  | none => .error (.notFound "User not found")
  | some _ =>
    let payment : Payment :=
      { id := s.nextPaymentId
        user_id := user_id
        amount := amount
        till_number := some till_number
        transaction_code := some transaction_code
        ptype := ptype
        status := "pending" }
    .ok ({ s with payments := s.payments ++ [payment],
                  nextPaymentId := s.nextPaymentId + 1 },
         payment.id)

/-- `POST /admin/payments/{payment_id}/verify` (main.py lines 249-269).
`adminKey` is the configured `ADMIN_KEY`; `x_admin_key` the request
header.  Sets the claim's status unconditionally from the `verified`
flag, then, when the claim has kind `listing_fee` and was verified,
approves the owning user if they are an unapproved seller.  Returns the
new payment status (the `payment_status` response field). -/
def admin_verify_payment (adminKey : String) (s : StoreState)
    (payment_id : Nat) (verified : Bool) (x_admin_key : String) :
    Except ApiError (StoreState × String) :=
  if x_admin_key != adminKey then .error (.forbidden "Invalid admin key")
  else
    match getPaymentById s payment_id with
    | none => .error (.notFound "Payment not found")
    | some p =>
      let newStatus := if verified then "verified" else "rejected"
      let payments1 := s.payments.map (fun q =>
        if q.id == payment_id then { q with status := newStatus } else q)
      let s1 := { s with payments := payments1 }
      if p.ptype == "listing_fee" && newStatus == "verified" then
        match getUserById s1 p.user_id with
        | some owner =>
          if owner.role == "seller" && !owner.approved then
            let users2 := s1.users.map (fun u =>
              if u.id == p.user_id then { u with approved := true } else u)
            .ok ({ s1 with users := users2 }, newStatus)
          else .ok (s1, newStatus)
        | none => .ok (s1, newStatus)
      else .ok (s1, newStatus)

/-- `POST /admin/items/{item_id}/activate` (main.py lines 276-287):
`item.paid = True if activate else item.paid`;
`item.active = True if activate else False`.  No check of the owning
seller's approval is performed.  Returns the new `active` flag. -/
def admin_activate_item (adminKey : String) (s : StoreState)
    (item_id : Nat) (activate : Bool) (x_admin_key : String) :
    Except ApiError (StoreState × Bool) :=
  if x_admin_key != adminKey then .error (.forbidden "Invalid admin key")
  else
    match getItemById s item_id with
    | none => .error (.notFound "Item not found")
    | some item =>
      let newPaid := if activate then true else item.paid
      let newActive := if activate then true else false
      let items1 := s.items.map (fun it =>
        if it.id == item_id then { it with paid := newPaid, active := newActive }
        else it)
      .ok ({ s with items := items1 }, newActive)

/-- `POST /admin/users/{user_id}/approve` (main.py lines 294-304):
`user.approved = True if approve else False`.  Returns the new
`approved` flag. -/
def admin_approve_user (adminKey : String) (s : StoreState)
    (user_id : Nat) (approve : Bool) (x_admin_key : String) :
    Except ApiError (StoreState × Bool) :=
  if x_admin_key != adminKey then .error (.forbidden "Invalid admin key")
  else
    match getUserById s user_id with
    | none => .error (.notFound "User not found")
    | some _ =>
      let users1 := s.users.map (fun u =>
        if u.id == user_id then { u with approved := if approve then true else false }
        else u)
      .ok ({ s with users := users1 }, if approve then true else false)

/-- The spec's C4 invariant, as an executable check:
every item with `active=true` has `paid=true`. -/
def activeImpliesPaid (s : StoreState) : Bool :=
  s.items.all (fun it => !it.active || it.paid)

/-- Whether the user of id `uid` exists in `users` and is approved. -/
def userApproved (users : List User) (uid : Nat) : Bool :=
  match users.find? (fun u => u.id == uid) with
  | some u => u.approved
  | none => false

/-- The spec's C3 invariant, as an executable check: no item is active
while its owning seller is unapproved (or missing). -/
def sellerApprovalInv (s : StoreState) : Bool :=
  s.items.all (fun it => !it.active || userApproved s.users it.owner_id)

/-- The empty store, with SQLite-style primary keys starting at 1. -/
def emptyStore : StoreState :=
  { users := [], items := [], payments := [],
    nextUserId := 1, nextItemId := 1, nextPaymentId := 1 }

end GuruApp

deriving instance DecidableEq for Except

namespace GuruApp

/-! ## Concrete executions

Two small traces built from the operations, used as concrete inputs for
counterexamples and witnesses.  `demoStep` extracts the successor state
of a successful operation (each use below is validated by a theorem
giving the full equation, so the `.error` fallback is never taken). -/

/-- A concrete admin key; both the configured key and the header value. -/
def adminK : String := "k"

/-- Successor state of a successful operation. -/
def demoStep {α : Type} (r : Except ApiError (StoreState × α)) : StoreState :=
  match r with
  | .ok (s, _) => s
  | .error _ => emptyStore

/-- Trace A, step 1: seller Alice registers (starts unapproved). -/
def sA1 : StoreState := demoStep (register id emptyStore "Alice" "a@x" "pw" "seller")

/-- Trace A, step 2: admin approves Alice. -/
def sA2 : StoreState := demoStep (admin_approve_user adminK sA1 1 true adminK)

/-- Trace A, step 3: Alice creates item 1 (starts `paid=false, active=false`). -/
def sA3 : StoreState := demoStep (create_item sA2 "Book" none 100 "digital" 1 none none)

/-- Trace A, step 4: Alice submits listing-fee payment claim 1 (pending). -/
def sA4 : StoreState := demoStep (manual_payment sA3 1 500 "TILL1" "ABC123" "listing_fee")

/-- Trace A, step 5: admin verifies claim 1. -/
def sA5 : StoreState := demoStep (admin_verify_payment adminK sA4 1 true adminK)

/-- Trace A, step 6: admin re-decides the already-verified claim 1 with
`verified=false`. -/
def sA6 : StoreState := demoStep (admin_verify_payment adminK sA5 1 false adminK)

/-- Trace A, step 5a: from `sA5`, admin activates item 1. -/
def sA7 : StoreState := demoStep (admin_activate_item adminK sA5 1 true adminK)

/-- Trace A, step 5b: admin un-approves Alice while her item 1 is active. -/
def sA8 : StoreState := demoStep (admin_approve_user adminK sA7 1 false adminK)

/-- Trace A, step 5c: admin deactivates item 1 again. -/
def sA9 : StoreState := demoStep (admin_activate_item adminK sA8 1 false adminK)

/-- Trace A, step 5d: admin re-activates item 1 while Alice is unapproved. -/
def sA10 : StoreState := demoStep (admin_activate_item adminK sA9 1 true adminK)

/-- Trace B, step 1: seller Bob registers and stays unapproved. -/
def sB1 : StoreState := demoStep (register id emptyStore "Bob" "b@x" "pw" "seller")

/-- Trace B, step 2: Bob submits listing-fee payment claim 1 (pending). -/
def sB2 : StoreState := demoStep (manual_payment sB1 1 500 "TILL1" "ABC123" "listing_fee")

/-- Result of creating an item with a negative price from state `sA2`. -/
def sC3 : StoreState := demoStep (create_item sA2 "Cheap" none (-50) "digital" 1 none none)

/-- Result of activating item 1 directly from state `sA3`. -/
def sW4 : StoreState := demoStep (admin_activate_item adminK sA3 1 true adminK)

/-- C1: the claim as stated is false.  In the reachable state `sA5`,
payment claim 1 is in the terminal state `verified`; a second decide call
with `verified=false` neither fails with a Conflict error nor leaves the
status unchanged: it succeeds and moves the claim from `verified` to
`rejected`. -/
theorem C1_counterexample :
    register id emptyStore "Alice" "a@x" "pw" "seller" = .ok (sA1, 1, false) ∧
    admin_approve_user adminK sA1 1 true adminK = .ok (sA2, true) ∧
    create_item sA2 "Book" none 100 "digital" 1 none none = .ok (sA3, 1) ∧
    manual_payment sA3 1 500 "TILL1" "ABC123" "listing_fee" = .ok (sA4, 1) ∧
    admin_verify_payment adminK sA4 1 true adminK = .ok (sA5, "verified") ∧
    paymentStatus sA5 1 = some "verified" ∧
    admin_verify_payment adminK sA5 1 false adminK = .ok (sA6, "rejected") ∧
    paymentStatus sA6 1 = some "rejected" := by
  decide

/-- C2: in the reachable state `sA4`, payment claim 1 has kind
`listing_fee` and is pending, and its paying seller owns item 1 with
`paid=false, active=false`.  Verifying the claim succeeds, but the item
store is completely unchanged: no item is located or activated — the
code performs no listing activation at all, contradicting its own
comment (main.py line 261) and the spec's cascade step (c). -/
theorem C2_verify_activates_no_item :
    getPaymentById sA4 1 =
      some { id := 1, user_id := 1, amount := 500, till_number := some "TILL1",
             transaction_code := some "ABC123", ptype := "listing_fee",
             status := "pending" } ∧
    getItemById sA4 1 =
      some { id := 1, title := "Book", description := none, price := 100,
             owner_id := 1, product_type := "digital", file_path := none,
             image_path := none, paid := false, active := false } ∧
    admin_verify_payment adminK sA4 1 true adminK = .ok (sA5, "verified") ∧
    sA5.items = sA4.items ∧
    getItemById sA5 1 =
      some { id := 1, title := "Book", description := none, price := 100,
             owner_id := 1, product_type := "digital", file_path := none,
             image_path := none, paid := false, active := false } := by
  decide

/-- C3: the claim as stated is false.  From the reachable state `sA5`
(approved seller Alice owning inactive item 1): activating the item
keeps the invariant; un-approving Alice leaves her item active, breaking
the invariant; deactivating restores it; and re-activating the item of
the still-unapproved Alice succeeds and breaks the invariant again — so
neither admin un-approval nor admin item activation preserves it. -/
theorem C3_counterexample :
    register id emptyStore "Alice" "a@x" "pw" "seller" = .ok (sA1, 1, false) ∧
    admin_approve_user adminK sA1 1 true adminK = .ok (sA2, true) ∧
    create_item sA2 "Book" none 100 "digital" 1 none none = .ok (sA3, 1) ∧
    manual_payment sA3 1 500 "TILL1" "ABC123" "listing_fee" = .ok (sA4, 1) ∧
    admin_verify_payment adminK sA4 1 true adminK = .ok (sA5, "verified") ∧
    admin_activate_item adminK sA5 1 true adminK = .ok (sA7, true) ∧
    sellerApprovalInv sA7 = true ∧
    admin_approve_user adminK sA7 1 false adminK = .ok (sA8, false) ∧
    sellerApprovalInv sA8 = false ∧
    (getItemById sA8 1).map (fun it => it.active) = some true ∧
    (getUserById sA8 1).map (fun u => u.approved) = some false ∧
    admin_activate_item adminK sA8 1 false adminK = .ok (sA9, false) ∧
    sellerApprovalInv sA9 = true ∧
    admin_activate_item adminK sA9 1 true adminK = .ok (sA10, true) ∧
    sellerApprovalInv sA10 = false ∧
    (getItemById sA10 1).map (fun it => it.active) = some true ∧
    (getUserById sA10 1).map (fun u => u.approved) = some false := by
  decide

/-- C9: the claim as stated is false.  In the reachable state `sA2`
(approved seller Alice), creating an item with price `-50` does not fail
with a Validation error: it succeeds and stores the item with the
negative price. -/
theorem C9_counterexample :
    register id emptyStore "Alice" "a@x" "pw" "seller" = .ok (sA1, 1, false) ∧
    admin_approve_user adminK sA1 1 true adminK = .ok (sA2, true) ∧
    create_item sA2 "Cheap" none (-50) "digital" 1 none none = .ok (sC3, 1) ∧
    { id := 1, title := "Cheap", description := none, price := -50,
      owner_id := 1, product_type := "digital", file_path := none,
      image_path := none, paid := false, active := false } ∈ sC3.items := by
  decide

end GuruApp

namespace GuruApp

/-! ## Helper lemmas -/

/-- `find?` commutes with a `map` whose function preserves the predicate. -/
theorem find?_map_pres {α : Type} (f : α → α) (p : α → Bool)
    (hf : ∀ a, p (f a) = p a) (l : List α) :
    (l.map f).find? p = (l.find? p).map f := by
  induction l with
  | nil => rfl
  | cons a l ih =>
    simp only [List.map_cons, List.find?_cons, hf a]
    cases p a <;> simp [ih]

/-- A status update keeps a payment's primary key. -/
theorem beq_id_pay (pid : Nat) (st : String) : ∀ q : Payment,
    ((if q.id == pid then { q with status := st } else q).id == pid) = (q.id == pid) := by
  intro q
  by_cases hq : (q.id == pid) = true <;> simp [hq]

/-- Primary-key lookup after a status update on that key. -/
theorem find?_update_pay (l : List Payment) (pid : Nat) (p : Payment) (st : String)
    (h : l.find? (fun q => q.id == pid) = some p) :
    (l.map (fun q => if q.id == pid then { q with status := st } else q)).find?
        (fun q => q.id == pid) = some { p with status := st } := by
  have hid : p.id = pid := by simpa using List.find?_some h
  rw [find?_map_pres _ _ (beq_id_pay pid st), h]
  simp [hid]

/-- An approval update keeps a user's primary key. -/
theorem beq_id_user (uid : Nat) : ∀ u : User,
    ((if u.id == uid then { u with approved := true } else u).id == uid) = (u.id == uid) := by
  intro u
  by_cases hu : (u.id == uid) = true <;> simp [hu]

/-- The decide endpoint on a missing payment id fails with 404 (internal
form, shared by later proofs). -/
theorem verify_notfound (adminKey : String) (s : StoreState) (pid : Nat) (v : Bool)
    (hp : getPaymentById s pid = none) :
    admin_verify_payment adminKey s pid v adminKey =
      .error (.notFound "Payment not found") := by
  simp [admin_verify_payment, hp]

/-- Success shape of the decide endpoint: the status is set from the flag
alone, items are untouched, and users are either untouched or get a
single approval flip. -/
theorem verify_ok_shape (adminKey : String) (s : StoreState) (pid : Nat) (p : Payment)
    (v : Bool) (hp : getPaymentById s pid = some p) :
    ∃ s', admin_verify_payment adminKey s pid v adminKey =
        .ok (s', if v then "verified" else "rejected") ∧
      s'.payments = s.payments.map (fun q =>
        if q.id == pid then { q with status := if v then "verified" else "rejected" }
        else q) ∧
      s'.items = s.items ∧
      (s'.users = s.users ∨
        ∃ uid, s'.users = s.users.map (fun u =>
          if u.id == uid then { u with approved := true } else u)) := by
  cases v with
  | false =>
    refine ⟨{ s with payments := s.payments.map (fun q =>
      if q.id == pid then { q with status := "rejected" } else q) }, ?_, by simp, rfl,
      Or.inl rfl⟩
    simp [admin_verify_payment, hp]
  | true =>
    by_cases hk : p.ptype = "listing_fee"
    · cases hu : s.users.find? (fun u => u.id == p.user_id) with
      | none =>
        refine ⟨{ s with payments := s.payments.map (fun q =>
          if q.id == pid then { q with status := "verified" } else q) }, ?_, by simp, rfl,
          Or.inl rfl⟩
        simp [admin_verify_payment, hp, hk, getUserById, hu]
      | some owner =>
        cases hb : (owner.role == "seller" && !owner.approved) with
        | false =>
          refine ⟨{ s with payments := s.payments.map (fun q =>
            if q.id == pid then { q with status := "verified" } else q) }, ?_, by simp, rfl,
            Or.inl rfl⟩
          simp [admin_verify_payment, hp, hk, getUserById, hu, hb]
        | true =>
          refine ⟨{ s with
            payments := s.payments.map (fun q =>
              if q.id == pid then { q with status := "verified" } else q),
            users := s.users.map (fun u =>
              if u.id == p.user_id then { u with approved := true } else u) },
            ?_, by simp, rfl, Or.inr ⟨p.user_id, rfl⟩⟩
          simp [admin_verify_payment, hp, hk, getUserById, hu, hb]
    · refine ⟨{ s with payments := s.payments.map (fun q =>
        if q.id == pid then { q with status := "verified" } else q) }, ?_, by simp, rfl,
        Or.inl rfl⟩
      simp [admin_verify_payment, hp, hk]

/-- Primary-key lookup after a paid/active update on that key. -/
theorem find?_update_item (l : List Item) (iid : Nat) (item : Item) (pd ac : Bool)
    (h : l.find? (fun it => it.id == iid) = some item) :
    (l.map (fun it =>
      if it.id == iid then { it with paid := pd, active := ac } else it)).find?
        (fun it => it.id == iid) = some { item with paid := pd, active := ac } := by
  have hid : item.id = iid := by simpa using List.find?_some h
  have hbeq : ∀ it : Item,
      ((if it.id == iid then { it with paid := pd, active := ac } else it).id == iid)
        = (it.id == iid) := by
    intro it
    by_cases hq : (it.id == iid) = true <;> simp [hq]
  rw [find?_map_pres _ _ hbeq, h]
  simp [hid]

/-- Success shape of the item activate endpoint. -/
theorem activate_ok_shape (adminKey : String) (s : StoreState) (iid : Nat) (item : Item)
    (act : Bool) (hit : getItemById s iid = some item) :
    ∃ s', admin_activate_item adminKey s iid act adminKey =
        .ok (s', if act then true else false) ∧
      s'.items = s.items.map (fun it =>
        if it.id == iid then
          { it with paid := if act then true else item.paid,
                    active := if act then true else false }
        else it) ∧
      s'.users = s.users ∧ s'.payments = s.payments := by
  cases act with
  | false =>
    refine ⟨{ s with items := s.items.map (fun it =>
      if it.id == iid then { it with paid := item.paid, active := false } else it) },
      ?_, by simp, rfl, rfl⟩
    simp [admin_activate_item, hit]
  | true =>
    refine ⟨{ s with items := s.items.map (fun it =>
      if it.id == iid then { it with paid := true, active := true } else it) },
      ?_, by simp, rfl, rfl⟩
    simp [admin_activate_item, hit]

/-- Success shape of item creation for an approved seller. -/
theorem create_ok_shape (s : StoreState) (title : String) (d : Option String)
    (price : Int) (pt : String) (oid : Nat) (fp ip : Option String) (owner : User)
    (ho : getUserById s oid = some owner) (hrole : owner.role = "seller")
    (happ : owner.approved = true) :
    create_item s title d price pt oid fp ip =
      .ok ({ s with items := s.items ++ [{ id := s.nextItemId, title := title, description := d, price := price, owner_id := oid, product_type := pt, file_path := fp, image_path := ip, paid := false, active := false }], nextItemId := s.nextItemId + 1 }, s.nextItemId) := by
  simp [create_item, ho, hrole, happ]

/-- Inversion of a successful item creation. -/
theorem create_item_ok_inv (s : StoreState) (title : String) (d : Option String)
    (price : Int) (pt : String) (oid : Nat) (fp ip : Option String)
    (s' : StoreState) (iid : Nat)
    (h : create_item s title d price pt oid fp ip = .ok (s', iid)) :
    s'.items = s.items ++ [{ id := s.nextItemId, title := title, description := d, price := price, owner_id := oid, product_type := pt, file_path := fp, image_path := ip, paid := false, active := false }] ∧
    s'.users = s.users := by
  simp only [create_item] at h
  split at h
  · exact Except.noConfusion h
  · split at h
    · exact Except.noConfusion h
    · split at h
      · exact Except.noConfusion h
      · simp only [Except.ok.injEq, Prod.mk.injEq] at h
        obtain ⟨h1, _⟩ := h
        subst h1
        exact ⟨rfl, rfl⟩

/-- Inversion of a successful item activation. -/
theorem activate_ok_inv (k : String) (s : StoreState) (iid : Nat) (act : Bool)
    (key : String) (s' : StoreState) (b : Bool)
    (h : admin_activate_item k s iid act key = .ok (s', b)) :
    ∃ item, getItemById s iid = some item ∧
      s'.items = s.items.map (fun it =>
        if it.id == iid then
          { it with paid := if act then true else item.paid,
                    active := if act then true else false }
        else it) ∧
      s'.users = s.users := by
  simp only [admin_activate_item] at h
  split at h
  · exact Except.noConfusion h
  · split at h
    · exact Except.noConfusion h
    · rename_i item heq
      simp only [Except.ok.injEq, Prod.mk.injEq] at h
      obtain ⟨h1, _⟩ := h
      subst h1
      exact ⟨item, heq, rfl, rfl⟩

/-- Inversion of a successful payment decision. -/
theorem verify_ok_inv (k : String) (s : StoreState) (pid : Nat) (v : Bool)
    (key : String) (s' : StoreState) (st : String)
    (h : admin_verify_payment k s pid v key = .ok (s', st)) :
    s'.items = s.items ∧
    (s'.users = s.users ∨
      ∃ uid, s'.users = s.users.map (fun u =>
        if u.id == uid then { u with approved := true } else u)) := by
  have hkey : key = k := by
    by_contra hne
    have hb : (key != k) = true := by simpa using hne
    simp [admin_verify_payment, hb] at h
  subst hkey
  cases hp : getPaymentById s pid with
  | none =>
    rw [verify_notfound key s pid v hp] at h
    exact Except.noConfusion h
  | some p =>
    obtain ⟨s2, heq, _, hitems, husers⟩ := verify_ok_shape key s pid p v hp
    rw [heq] at h
    simp only [Except.ok.injEq, Prod.mk.injEq] at h
    obtain ⟨h1, _⟩ := h
    subst h1
    exact ⟨hitems, husers⟩

/-- Inversion of a successful user approval (`approve=true`). -/
theorem approve_true_ok_inv (k : String) (s : StoreState) (uid : Nat)
    (key : String) (s' : StoreState) (b : Bool)
    (h : admin_approve_user k s uid true key = .ok (s', b)) :
    s'.items = s.items ∧
    s'.users = s.users.map (fun u =>
      if u.id == uid then { u with approved := true } else u) := by
  simp only [admin_approve_user] at h
  split at h
  · exact Except.noConfusion h
  · split at h
    · exact Except.noConfusion h
    · simp only [Except.ok.injEq, Prod.mk.injEq] at h
      obtain ⟨h1, _⟩ := h
      subst h1
      exact ⟨rfl, by simp⟩

/-- Flipping one user's `approved` to true can only keep other
approval facts true. -/
theorem userApproved_map_mono (users : List User) (uid n : Nat)
    (h : userApproved users n = true) :
    userApproved (users.map (fun u =>
      if u.id == uid then { u with approved := true } else u)) n = true := by
  have hbeq : ∀ u : User,
      ((if u.id == uid then { u with approved := true } else u).id == n)
        = (u.id == n) := by
    intro u
    by_cases hq : (u.id == uid) = true <;> simp [hq]
  unfold userApproved at h ⊢
  rw [find?_map_pres _ _ hbeq]
  cases hfind : users.find? (fun u => u.id == n) with
  | none =>
    rw [hfind] at h
    exact absurd h (by simp)
  | some u =>
    rw [hfind] at h
    have h2 : u.approved = true := h
    by_cases hq : u.id = uid
    · simp [hq]
    · simp [hq, h2]

end GuruApp

namespace GuruApp

/-! ## Claim theorems -/

/-- C1 (amended): `admin_verify_payment` performs no terminal-state check:
for any existing claim, deciding it always succeeds and overwrites the
status with the new flag.  A second decide call with the same flag leaves
the status unchanged and returns the same result, but a second call with
the opposite flag moves the claim between `verified` and `rejected`; no
Conflict error is ever raised. -/
theorem C1_redecide_overwrites (adminKey : String) (s : StoreState) (pid : Nat)
    (p : Payment) (v1 v2 : Bool) (hp : getPaymentById s pid = some p) :
    ∃ s1, admin_verify_payment adminKey s pid v1 adminKey =
        .ok (s1, if v1 then "verified" else "rejected") ∧
      paymentStatus s1 pid = some (if v1 then "verified" else "rejected") ∧
      ∃ s2, admin_verify_payment adminKey s1 pid v2 adminKey =
          .ok (s2, if v2 then "verified" else "rejected") ∧
        paymentStatus s2 pid = some (if v2 then "verified" else "rejected") ∧
        (v2 = v1 → paymentStatus s2 pid = paymentStatus s1 pid) := by
  obtain ⟨s1, h1, hpay1, _, _⟩ := verify_ok_shape adminKey s pid p v1 hp
  have hp1 : getPaymentById s1 pid =
      some { p with status := if v1 then "verified" else "rejected" } := by
    rw [getPaymentById, hpay1]
    exact find?_update_pay _ _ _ _ hp
  obtain ⟨s2, h2, hpay2, _, _⟩ := verify_ok_shape adminKey s1 pid _ v2 hp1
  have hp2 : getPaymentById s2 pid =
      some { p with status := if v2 then "verified" else "rejected" } := by
    rw [getPaymentById, hpay2]
    exact find?_update_pay s1.payments pid
      { p with status := if v1 then "verified" else "rejected" } _ hp1
  refine ⟨s1, h1, ?_, s2, h2, ?_, ?_⟩
  · rw [paymentStatus, hp1]
    rfl
  · rw [paymentStatus, hp2]
    rfl
  · intro hv
    subst hv
    rw [paymentStatus, paymentStatus, hp1, hp2]

/-- C1 witness: deciding Bob's pending claim with `verified=true` and then
re-deciding with `verified=false` takes the instantiated amended theorem
at the concrete state `sB2`. -/
theorem C1_redecide_overwrites_witness :
    ∃ s1, admin_verify_payment adminK sB2 1 true adminK = .ok (s1, "verified") ∧
      paymentStatus s1 1 = some "verified" ∧
      ∃ s2, admin_verify_payment adminK s1 1 false adminK = .ok (s2, "rejected") ∧
        paymentStatus s2 1 = some "rejected" ∧
        (false = true → paymentStatus s2 1 = paymentStatus s1 1) :=
  C1_redecide_overwrites adminK sB2 1
    { id := 1, user_id := 1, amount := 500, till_number := some "TILL1",
      transaction_code := some "ABC123", ptype := "listing_fee", status := "pending" }
    true false (by decide)

/-- C3 (amended): the seller-approval invariant (no active item owned by
an unapproved user) is preserved by item creation, by payment
verification and by admin approval with `approve=true`; it is not
preserved by admin item activation or by admin un-approval (see the C3
counterexample). -/
theorem C3_partial_preservation (s : StoreState)
    (hinv : sellerApprovalInv s = true) :
    (∀ title d price pt oid fp ip s' iid,
      create_item s title d price pt oid fp ip = .ok (s', iid) →
      sellerApprovalInv s' = true) ∧
    (∀ k pid v key s' st,
      admin_verify_payment k s pid v key = .ok (s', st) →
      sellerApprovalInv s' = true) ∧
    (∀ k uid key s' b,
      admin_approve_user k s uid true key = .ok (s', b) →
      sellerApprovalInv s' = true) := by
  rw [sellerApprovalInv] at hinv
  refine ⟨?_, ?_, ?_⟩
  · intro title d price pt oid fp ip s' iid h
    obtain ⟨hitems, husers⟩ := create_item_ok_inv s title d price pt oid fp ip s' iid h
    rw [sellerApprovalInv, hitems, husers, List.all_append]
    simp [hinv]
  · intro k pid v key s' st h
    obtain ⟨hitems, husers⟩ := verify_ok_inv k s pid v key s' st h
    rw [sellerApprovalInv, hitems]
    cases husers with
    | inl hsame =>
      rw [hsame]
      exact hinv
    | inr hmap =>
      obtain ⟨uid, hmap⟩ := hmap
      rw [hmap]
      rw [List.all_eq_true] at hinv ⊢
      intro it hmem
      have hx := hinv it hmem
      rw [Bool.or_eq_true] at hx ⊢
      cases hx with
      | inl hact => exact Or.inl hact
      | inr happ => exact Or.inr (userApproved_map_mono s.users uid it.owner_id happ)
  · intro k uid key s' b h
    obtain ⟨hitems, husers⟩ := approve_true_ok_inv k s uid key s' b h
    rw [sellerApprovalInv, hitems, husers]
    rw [List.all_eq_true] at hinv ⊢
    intro it hmem
    have hx := hinv it hmem
    rw [Bool.or_eq_true] at hx ⊢
    cases hx with
    | inl hact => exact Or.inl hact
    | inr happ => exact Or.inr (userApproved_map_mono s.users uid it.owner_id happ)

/-- C3 witness: the amended preservation theorem applied at the concrete
state `sA4`, for the payment-verification step that produces `sA5`. -/
theorem C3_partial_preservation_witness :
    sellerApprovalInv sA4 = true ∧ sellerApprovalInv sA5 = true :=
  ⟨by decide,
    (C3_partial_preservation sA4 (by decide)).2.1 adminK 1 true adminK sA5 "verified"
      (by decide)⟩

/-- C4: every mutating operation named by the claim (item creation, admin
activation/deactivation, payment verification) preserves the invariant
that `active=true` implies `paid=true` for all items. -/
theorem C4_active_implies_paid_preserved (s : StoreState)
    (hinv : activeImpliesPaid s = true) :
    (∀ title d price pt oid fp ip s' iid,
      create_item s title d price pt oid fp ip = .ok (s', iid) →
      activeImpliesPaid s' = true) ∧
    (∀ k iid act key s' b,
      admin_activate_item k s iid act key = .ok (s', b) →
      activeImpliesPaid s' = true) ∧
    (∀ k pid v key s' st,
      admin_verify_payment k s pid v key = .ok (s', st) →
      activeImpliesPaid s' = true) := by
  rw [activeImpliesPaid] at hinv
  refine ⟨?_, ?_, ?_⟩
  · intro title d price pt oid fp ip s' iid h
    obtain ⟨hitems, _⟩ := create_item_ok_inv s title d price pt oid fp ip s' iid h
    rw [activeImpliesPaid, hitems, List.all_append]
    simp [hinv]
  · intro k iid act key s' b h
    obtain ⟨item, _, hitems, _⟩ := activate_ok_inv k s iid act key s' b h
    rw [activeImpliesPaid, hitems, List.all_map]
    rw [List.all_eq_true] at hinv ⊢
    intro it hmem
    simp only [Function.comp]
    by_cases hq : (it.id == iid) = true
    · cases act <;> simp [hq]
    · simp only [hq, if_false]
      exact hinv it hmem
  · intro k pid v key s' st h
    obtain ⟨hitems, _⟩ := verify_ok_inv k s pid v key s' st h
    rw [activeImpliesPaid, hitems]
    exact hinv

/-- C4 witness: the preservation theorem applied at the concrete state
`sA3`, for the activation step that produces `sW4`. -/
theorem C4_active_implies_paid_preserved_witness :
    activeImpliesPaid sA3 = true ∧ activeImpliesPaid sW4 = true :=
  ⟨by decide,
    (C4_active_implies_paid_preserved sA3 (by decide)).2.1 adminK 1 true adminK sW4 true
      (by decide)⟩

/-- C5: verifying an existing `listing_fee` claim whose owner is an
unapproved seller sets exactly that user's `approved` flag to true: the
owner's stored record afterwards is the old record with `approved=true`,
every user with a different id is carried over unchanged (in both
directions), and the user table keeps its length. -/
theorem C5_cascade_approves_owner_only (adminKey : String) (s : StoreState)
    (pid : Nat) (p : Payment) (owner : User)
    (hp : getPaymentById s pid = some p) (hk : p.ptype = "listing_fee")
    (ho : getUserById s p.user_id = some owner)
    (hrole : owner.role = "seller") (happ : owner.approved = false) :
    ∃ s', admin_verify_payment adminKey s pid true adminKey = .ok (s', "verified") ∧
      getUserById s' p.user_id = some { owner with approved := true } ∧
      (∀ u, u ∈ s.users → u.id ≠ p.user_id → u ∈ s'.users) ∧
      (∀ u, u ∈ s'.users → u.id ≠ p.user_id → u ∈ s.users) ∧
      s'.users.length = s.users.length := by
  have hu : s.users.find? (fun u => u.id == p.user_id) = some owner := ho
  refine ⟨{ s with
      payments := s.payments.map (fun q =>
        if q.id == pid then { q with status := "verified" } else q),
      users := s.users.map (fun u =>
        if u.id == p.user_id then { u with approved := true } else u) },
    ?_, ?_, ?_, ?_, by simp⟩
  · simp [admin_verify_payment, hp, hk, getUserById, hu, hrole, happ]
  · have hid : owner.id = p.user_id := by simpa using List.find?_some hu
    show (s.users.map (fun u =>
      if u.id == p.user_id then { u with approved := true } else u)).find?
        (fun u => u.id == p.user_id) = some { owner with approved := true }
    rw [find?_map_pres _ _ (beq_id_user p.user_id), hu]
    simp [hid]
  · intro u hmem hne
    refine List.mem_map.mpr ⟨u, hmem, ?_⟩
    simp [hne]
  · intro u hmem hne
    obtain ⟨a, ha, hfa⟩ := List.mem_map.mp hmem
    by_cases hid : a.id = p.user_id
    · exfalso
      apply hne
      rw [← hfa]
      simp [hid]
    · rw [← hfa]
      simpa [hid] using ha

/-- C5 witness: the theorem applied to Bob's pending listing-fee claim in
the concrete state `sB2`, where Bob is an unapproved seller. -/
theorem C5_cascade_approves_owner_only_witness :
    ∃ s', admin_verify_payment adminK sB2 1 true adminK = .ok (s', "verified") ∧
      getUserById s' 1 = some { id := 1, name := "Bob", email := "b@x", password_hash := "pw", role := "seller", approved := true } ∧
      (∀ u, u ∈ sB2.users → u.id ≠ 1 → u ∈ s'.users) ∧
      (∀ u, u ∈ s'.users → u.id ≠ 1 → u ∈ sB2.users) ∧
      s'.users.length = sB2.users.length :=
  C5_cascade_approves_owner_only adminK sB2 1
    { id := 1, user_id := 1, amount := 500, till_number := some "TILL1",
      transaction_code := some "ABC123", ptype := "listing_fee", status := "pending" }
    { id := 1, name := "Bob", email := "b@x", password_hash := "pw",
      role := "seller", approved := false }
    (by decide) rfl (by decide) rfl rfl

/-- C6: rejecting an existing claim mutates only that claim's status: the
user table, the item table and every other payment are unchanged, and the
one matching payment is the old record with status `"rejected"`. -/
theorem C6_reject_frame (adminKey : String) (s : StoreState) (pid : Nat)
    (p : Payment) (hp : getPaymentById s pid = some p) :
    ∃ s', admin_verify_payment adminKey s pid false adminKey = .ok (s', "rejected") ∧
      s'.users = s.users ∧ s'.items = s.items ∧
      s'.payments = s.payments.map (fun q =>
        if q.id == pid then { q with status := "rejected" } else q) := by
  refine ⟨{ s with payments := s.payments.map (fun q =>
    if q.id == pid then { q with status := "rejected" } else q) }, ?_, rfl, rfl, rfl⟩
  simp [admin_verify_payment, hp]

/-- C6 witness: rejecting Bob's pending claim in the concrete state `sB2`. -/
theorem C6_reject_frame_witness :
    ∃ s', admin_verify_payment adminK sB2 1 false adminK = .ok (s', "rejected") ∧
      s'.users = sB2.users ∧ s'.items = sB2.items ∧
      s'.payments = sB2.payments.map (fun q =>
        if q.id == 1 then { q with status := "rejected" } else q) :=
  C6_reject_frame adminK sB2 1
    { id := 1, user_id := 1, amount := 500, till_number := some "TILL1",
      transaction_code := some "ABC123", ptype := "listing_fee", status := "pending" }
    (by decide)

/-- C7: deciding a claim id that does not resolve to an existing payment
fails with 404 Payment not found; the operation returns no successor
state, so no store is mutated and no cascade runs. -/
theorem C7_decide_notfound (adminKey : String) (s : StoreState) (pid : Nat)
    (v : Bool) (hp : getPaymentById s pid = none) :
    admin_verify_payment adminKey s pid v adminKey =
      .error (.notFound "Payment not found") :=
  verify_notfound adminKey s pid v hp

/-- C7 witness: the spec's scenario — deciding on the nonexistent claim
id 9999 in the empty store. -/
theorem C7_decide_notfound_witness :
    admin_verify_payment adminK emptyStore 9999 true adminK =
      .error (.notFound "Payment not found") :=
  C7_decide_notfound adminK emptyStore 9999 true (by decide)

/-- C8: deactivating an item whose `paid` flag is true sets `active` to
false and leaves `paid` true; reactivating it afterwards sets `active`
back to true without altering `paid`. -/
theorem C8_deactivate_preserves_paid (adminKey : String) (s : StoreState)
    (iid : Nat) (item : Item) (hit : getItemById s iid = some item)
    (hpaid : item.paid = true) :
    ∃ s1, admin_activate_item adminKey s iid false adminKey = .ok (s1, false) ∧
      getItemById s1 iid = some { item with active := false } ∧
      ({ item with active := false } : Item).paid = true ∧
      ∃ s2, admin_activate_item adminKey s1 iid true adminKey = .ok (s2, true) ∧
        getItemById s2 iid = some { item with paid := true, active := true } ∧
        ({ item with paid := true, active := true } : Item).paid = item.paid := by
  obtain ⟨s1, h1, hitems1, _, _⟩ := activate_ok_shape adminKey s iid item false hit
  have hit1 : getItemById s1 iid = some { item with active := false } := by
    rw [getItemById, hitems1]
    exact find?_update_item _ _ _ _ _ hit
  obtain ⟨s2, h2, hitems2, _, _⟩ := activate_ok_shape adminKey s1 iid _ true hit1
  have hit2 : getItemById s2 iid = some { item with paid := true, active := true } := by
    rw [getItemById, hitems2]
    exact find?_update_item s1.items iid { item with active := false } _ _ hit1
  exact ⟨s1, h1, hit1, hpaid, s2, h2, hit2, by simp [hpaid]⟩

/-- C8 witness: deactivating and reactivating Alice's active, paid item 1
in the concrete state `sA7`. -/
theorem C8_deactivate_preserves_paid_witness :
    ∃ s1, admin_activate_item adminK sA7 1 false adminK = .ok (s1, false) ∧
      getItemById s1 1 = some { id := 1, title := "Book", description := none, price := 100, owner_id := 1, product_type := "digital", file_path := none, image_path := none, paid := true, active := false } ∧
      (true : Bool) = true ∧
      ∃ s2, admin_activate_item adminK s1 1 true adminK = .ok (s2, true) ∧
        getItemById s2 1 = some { id := 1, title := "Book", description := none, price := 100, owner_id := 1, product_type := "digital", file_path := none, image_path := none, paid := true, active := true } ∧
        (true : Bool) = true :=
  C8_deactivate_preserves_paid adminK sA7 1
    { id := 1, title := "Book", description := none, price := 100, owner_id := 1,
      product_type := "digital", file_path := none, image_path := none,
      paid := true, active := true }
    (by decide) rfl

/-- C9 (amended): `create_item` validates only the owner (existence, role
seller, approval) and performs no price validation: any price, negative
included, is accepted, and the item is created storing that price. -/
theorem C9_no_price_validation (s : StoreState) (title : String)
    (d : Option String) (price : Int) (pt : String) (oid : Nat)
    (fp ip : Option String) (owner : User)
    (ho : getUserById s oid = some owner) (hrole : owner.role = "seller")
    (happ : owner.approved = true) :
    ∃ s', create_item s title d price pt oid fp ip = .ok (s', s.nextItemId) ∧
      { id := s.nextItemId, title := title, description := d, price := price,
        owner_id := oid, product_type := pt, file_path := fp, image_path := ip,
        paid := false, active := false } ∈ s'.items :=
  ⟨_, create_ok_shape s title d price pt oid fp ip owner ho hrole happ, by simp⟩

/-- C9 witness: creating an item with price `-7` for the approved seller
Alice in the concrete state `sA2`. -/
theorem C9_no_price_validation_witness :
    ∃ s', create_item sA2 "Widget" none (-7) "service" 1 none none = .ok (s', 1) ∧
      { id := 1, title := "Widget", description := none, price := -7,
        owner_id := 1, product_type := "service", file_path := none,
        image_path := none, paid := false, active := false } ∈ s'.items :=
  C9_no_price_validation sA2 "Widget" none (-7) "service" 1 none none
    { id := 1, name := "Alice", email := "a@x", password_hash := "pw",
      role := "seller", approved := true }
    (by decide) rfl rfl

/-- C10: registration with an unused email always succeeds and sets the
new user's `approved` flag to `False if role == "seller" else True`: any
role string other than exactly `"seller"` — `"admin"`, arbitrary text —
yields `approved=true`; only `"seller"` yields `approved=false`. -/
theorem C10_register_approval (hashPw : String → String) (s : StoreState)
    (name email pw role : String) (h : get_user_by_email s email = none) :
    register hashPw s name email pw role =
      .ok ({ s with users := s.users ++ [{ id := s.nextUserId, name := name, email := email, password_hash := hashPw pw, role := role, approved := if role == "seller" then false else true }], nextUserId := s.nextUserId + 1 }, s.nextUserId, if role == "seller" then false else true) ∧
    (role ≠ "seller" → (if role == "seller" then false else true) = true) ∧
    (role = "seller" → (if role == "seller" then false else true) = false) := by
  refine ⟨by simp [register, h], ?_, ?_⟩
  · intro hr
    simp [hr]
  · intro hr
    simp [hr]

/-- C10 witness: registering with role `"admin"` (not in {buyer, seller})
in the empty store; the created user starts approved. -/
theorem C10_register_approval_witness :
    register (fun p => p) emptyStore "Eve" "e@x" "pw" "admin" =
      .ok ({ users := [{ id := 1, name := "Eve", email := "e@x", password_hash := "pw", role := "admin", approved := true }], items := [], payments := [], nextUserId := 2, nextItemId := 1, nextPaymentId := 1 }, 1, true) ∧
    (("admin" : String) ≠ "seller" →
      (if ("admin" : String) == "seller" then false else true) = true) ∧
    (("admin" : String) = "seller" →
      (if ("admin" : String) == "seller" then false else true) = false) :=
  C10_register_approval (fun p => p) emptyStore "Eve" "e@x" "pw" "admin" rfl

end GuruApp
